import Mathlib

/-!
Verification of the alx-polly polling application core against its
natural-language specification.

The definitions below are a shallow embedding of the TypeScript source:

* `rateLimit` embeds `rateLimit` from `src/lib/rate-limit.ts` (the in-memory
  fixed-window rate limiter).  The JavaScript `Map` is embedded as an
  association list (`RLMap`) with `mapGet`/`mapSet` mirroring `Map.get` /
  `Map.set` (update-in-place for an existing key, append for a new one).
  `Date.now()` is passed in explicitly as the `now` argument; timestamps
  and counters are integers, as JavaScript numbers are here.
* `submitVote`, `createPoll`, `deletePoll`, `updatePoll` embed the server
  actions of `src/app/lib/actions/poll-actions.ts`; `castVote` and the tally
  part of `getPollResults` embed `src/lib/poll-client.ts`.  Supabase queries
  are embedded as pure lookups/updates on an explicit `DB` value, and the
  outcome of the row-insert query is passed in as an `Option String`
  (`none` = insert succeeded, `some msg` = storage error with message `msg`).
* The zod schemas of `src/lib/validations/poll.ts` are embedded as
  `voteParse` / `createPollParse` / `updatePollParse`, returning the first
  failing rule's message (`none` when the input validates).
-/

namespace Polly

/-- One entry of the rate limiter's in-memory map: a request count and the
window-reset timestamp (`{ count, resetTime }` in `src/lib/rate-limit.ts`). -/
structure Bucket where
  count : Int
  resetTime : Int
deriving Repr, DecidableEq

/-- The result record returned by `rateLimit`:
`{ success, remaining, resetTime }`. -/
structure RateLimitResult where
  success : Bool
  remaining : Int
  resetTime : Int
deriving Repr, DecidableEq

/-- The rate limiter's `Map<string, {count, resetTime}>`, embedded as an
association list kept in insertion order. -/
abbrev RLMap := List (String × Bucket)

/-- `Map.get`: the value stored at `k`, if any. -/
def mapGet (m : RLMap) (k : String) : Option Bucket :=
  match m with
  | [] => none
  | (k', v) :: rest => if k' = k then some v else mapGet rest k

/-- `Map.set`: replace the value at `k` in place, or append the binding when
`k` is absent (JavaScript `Map` preserves insertion order). -/
def mapSet (m : RLMap) (k : String) (v : Bucket) : RLMap :=
  match m with
  | [] => [(k, v)]
  | (k', v') :: rest => if k' = k then (k, v) :: rest else (k', v') :: mapSet rest k v

/-- Embedding of `rateLimit(identifier, maxRequests, windowMs)` from
`src/lib/rate-limit.ts`: fixed-window counting.  If no bucket exists or
`now > resetTime`, start a fresh window with count 1; otherwise deny when
`count >= maxRequests` (leaving the map untouched) and increment otherwise.
Returns the result record together with the updated map. -/
def rateLimit (m : RLMap) (identifier : String) (maxRequests windowMs now : Int) :
    RateLimitResult × RLMap :=
  match mapGet m identifier with
  | none =>
      (⟨true, maxRequests - 1, now + windowMs⟩, mapSet m identifier ⟨1, now + windowMs⟩)
  | some current =>
      if now > current.resetTime then
        (⟨true, maxRequests - 1, now + windowMs⟩, mapSet m identifier ⟨1, now + windowMs⟩)
      else if current.count ≥ maxRequests then
        (⟨false, 0, current.resetTime⟩, m)
      else
        (⟨true, maxRequests - (current.count + 1), current.resetTime⟩,
          mapSet m identifier ⟨current.count + 1, current.resetTime⟩)

/-- A sequence of `rateLimit` calls for one identifier at the given times,
threading the map through; returns the list of results and the final map. -/
def rateLimitCalls (k : String) (maxR w : Int) : RLMap → List Int → List RateLimitResult × RLMap
  | m, [] => ([], m)
  | m, t :: ts =>
      let step := rateLimit m k maxR w t
      let rest := rateLimitCalls k maxR w step.2 ts
      (step.1 :: rest.1, rest.2)

/-- Hexadecimal digit test used by the uuid format check. -/
def isHexDigit (c : Char) : Bool :=
  c.isDigit || ('a' ≤ c && c ≤ 'f') || ('A' ≤ c && c ≤ 'F')

/-- Embedding of zod's `.uuid()` string format check from
`src/lib/validations/poll.ts`: 36 characters forming five hyphen-separated
hexadecimal groups of sizes 8-4-4-4-12 (case-insensitive). -/
def isUuid (s : String) : Bool :=
  let cs := s.toList
  cs.length == 36 &&
    (List.range 36).all (fun i =>
      if i == 8 || i == 13 || i == 18 || i == 23 then cs.getD i ' ' == '-'
      else isHexDigit (cs.getD i ' '))

/-- Embedding of `voteSchema.parse` from `src/lib/validations/poll.ts`:
`pollId` must be a uuid and `optionIndex` an integer in `[0, 9]`.  Returns
the message of the first failing rule, `none` when the input validates.
`optionIndex` is an `Int` here, so zod's integer check always passes. -/
def voteParse (pollId : String) (optionIndex : Int) : Option String :=
  if isUuid pollId = false then some "Invalid poll ID"
  else if optionIndex < 0 then some "Invalid option index"
  else if optionIndex > 9 then some "Invalid option index"
  else none

/-- Characters accepted by `createPollSchema`'s question regex
`[a-zA-Z0-9\s?!.,-]` (ASCII whitespace stands in for the regex class). -/
def isQuestionChar (c : Char) : Bool :=
  c.isAlphanum || c == ' ' || c == '\t' || c == '\n' || c == '\r' ||
    c == '?' || c == '!' || c == '.' || c == ',' || c == '-'

/-- Embedding of `createPollSchema.parse` from `src/lib/validations/poll.ts`:
question 1-500 characters over the allowed alphabet, 2-10 options each of
1-200 characters and pairwise distinct (zod compares `new Set(options).size`
with `options.length`), and an optional expiration timestamp that must lie
strictly in the future.  Returns the message of the first failing rule. -/
def createPollParse (question : String) (options : List String)
    (expiresAt : Option Int) (now : Int) : Option String :=
  if question.length < 1 then some "Question is required"
  else if question.length > 500 then some "Question is too long"
  else if (question.toList.all isQuestionChar) = false then
    some "Question contains invalid characters"
  else if options.length < 2 then some "At least 2 options are required"
  else if options.length > 10 then some "Maximum 10 options allowed"
  else if (options.all (fun o => decide (1 ≤ o.length ∧ o.length ≤ 200))) = false then
    some "Each option must be between 1 and 200 characters"
  else if ¬ options.Nodup then some "Options must be unique"
  else
    match expiresAt with
    | none => none
    | some t => if t > now then none else some "Expiration date must be in the future"

/-- Embedding of `updatePollSchema.parse`: `createPollSchema` extended with a
uuid `pollId`.  `updatePoll` never supplies an `expiresAt`, so none is
checked here. -/
def updatePollParse (pollId question : String) (options : List String) : Option String :=
  match createPollParse question options none 0 with
  | some m => some m
  | none => if isUuid pollId = false then some "Invalid poll ID" else none

/-- A row of the `polls` table: id, owning user, question, options array and
optional expiration timestamp (`expires_at`). -/
structure Poll where
  id : String
  userId : String
  question : String
  options : List String
  expiresAt : Option Int
deriving Repr, DecidableEq

/-- A row of the `votes` table: poll reference, optional voter (null for
anonymous votes) and the selected option index. -/
structure Vote where
  pollId : String
  userId : Option String
  optionIndex : Int
deriving Repr, DecidableEq

/-- The relational store the Supabase queries run against. -/
structure DB where
  polls : List Poll
  votes : List Vote
deriving Repr, DecidableEq

/-- Embedding of `supabase.from("polls").select().eq("id", id).single()`. -/
def findPoll (db : DB) (id : String) : Option Poll :=
  db.polls.find? (fun p => p.id == id)

/-- Embedding of the duplicate-vote lookup
`from("votes").select("id").eq("poll_id", pollId).eq("user_id", uid).single()`. -/
def findUserVote (db : DB) (pollId uid : String) : Option Vote :=
  db.votes.find? (fun v => v.pollId == pollId && v.userId == some uid)

/-- Embedding of `isPollExpired` / the inline expiry test of `castVote`
(`src/lib/poll-client.ts` lines 53-60): expired iff the poll has a non-null
`expires_at` and `now` is strictly after it. -/
def pollExpired (expiresAt : Option Int) (now : Int) : Bool :=
  match expiresAt with
  | none => false
  | some t => decide (now > t)

/-- The rate-limit key computed by `submitVote`: `vote:<userId>` for
authenticated callers, `vote:anonymous:<pollId>` for anonymous ones. -/
def voteKey (user : Option String) (pollId : String) : String :=
  match user with
  | some u => "vote:" ++ u
  | none => "vote:anonymous:" ++ pollId

/-- The duplicate-vote condition of `submitVote`/`castVote`: an existing vote
is looked up only when the caller is authenticated; anonymous attempts are
never checked against prior votes. -/
def hasUserVote (db : DB) (user : Option String) (pollId : String) : Bool :=
  match user with
  | some u => (findUserVote db pollId u).isSome
  | none => false

/-- Embedding of the server action `submitVote(pollId, optionIndex)` from
`src/app/lib/actions/poll-actions.ts` (lines 181-253).  The checks run in
the source's order: zod parse, rate limit (key `vote:<user>` for
authenticated callers, `vote:anonymous:<pollId>` otherwise, 5 requests per
60000 ms), duplicate vote (authenticated callers only), poll existence,
option bounds (`optionIndex >= poll.options.length`), then the insert.
There is no expiry check in this function.  `insertResult` is the outcome
of the insert query (`some msg` = storage error, whose message the source
returns verbatim via `return { error: error.message }`).  Returns the
caller-visible `error` field together with the updated store and rate-limit
map. -/
def submitVote (db : DB) (rl : RLMap) (user : Option String) (now : Int)
    (pollId : String) (optionIndex : Int) (insertResult : Option String) :
    Option String × DB × RLMap :=
  match voteParse pollId optionIndex with
  | some m => (some m, db, rl)
  | none =>
    let rlStep := rateLimit rl (voteKey user pollId) 5 60000 now
    if rlStep.1.success = false then
      (some "Too many votes. Please wait before voting again.", db, rlStep.2)
    else
      if hasUserVote db user pollId then
        (some "You have already voted on this poll.", db, rlStep.2)
      else
        match findPoll db pollId with
        | none => (some "Poll not found.", db, rlStep.2)
        | some poll =>
          if optionIndex ≥ (poll.options.length : Int) then
            (some "Invalid option selected.", db, rlStep.2)
          else
            match insertResult with
            | some msg => (some msg, db, rlStep.2)
            | none => (none, ⟨db.polls, db.votes ++ [⟨pollId, user, optionIndex⟩]⟩, rlStep.2)

/-- Embedding of the client function `castVote(pollId, optionIndex)` from
`src/lib/poll-client.ts` (lines 28-106).  The checks run in the source's
order: zod parse, poll existence, expiry, option bounds
(`optionIndex < 0 || optionIndex >= poll.options.length`), duplicate vote
(authenticated callers only), then the insert; a storage error on insert is
mapped to the generic message `Failed to submit vote`.  Returns the
`(success, error)` pair together with the updated store. -/
def castVote (db : DB) (user : Option String) (now : Int)
    (pollId : String) (optionIndex : Int) (insertResult : Option String) :
    (Bool × Option String) × DB :=
  match voteParse pollId optionIndex with
  | some m => ((false, some m), db)
  | none =>
    match findPoll db pollId with
    | none => ((false, some "Poll not found"), db)
    | some poll =>
      if pollExpired poll.expiresAt now then
        ((false, some "This poll has expired"), db)
      else if optionIndex < 0 ∨ optionIndex ≥ (poll.options.length : Int) then
        ((false, some "Invalid option selected"), db)
      else
        if hasUserVote db user pollId then
          ((false, some "You have already voted on this poll"), db)
        else
          match insertResult with
          | some _ => ((false, some "Failed to submit vote"), db)
          | none => ((true, none), ⟨db.polls, db.votes ++ [⟨pollId, user, optionIndex⟩]⟩)

/-- Embedding of the server action `createPoll(formData)` from
`src/app/lib/actions/poll-actions.ts` (lines 35-84).  The source reads only
the `question` and `options` form fields, drops falsy (empty) option strings
(`filter(Boolean)`), validates `{ question, options }` against
`createPollSchema` (so the schema's `expiresAt` rule sees `undefined` and
always passes), requires an authenticated user, and inserts
`{ user_id, question, options }` — the stored poll has no expiration.  The
`expiresAtField` argument models the form's `expiresAt` entry: the source
never reads it, so it cannot influence the result.  A storage error message
is returned verbatim. -/
def createPoll (db : DB) (user : Option String)
    (question : String) (rawOptions : List String) (expiresAtField : Option String)
    (newId : String) (insertResult : Option String) : Option String × DB :=
  let _ := expiresAtField
  let options := rawOptions.filter (fun o => o != "")
  match createPollParse question options none 0 with
  | some m => (some m, db)
  | none =>
    match user with
    | none => (some "You must be logged in to create a poll.", db)
    | some u =>
      match insertResult with
      | some msg => (some msg, db)
      | none => (none, ⟨db.polls ++ [⟨newId, u, question, options, none⟩], db.votes⟩)

/-- Embedding of the server action `deletePoll(id)` from
`src/app/lib/actions/poll-actions.ts` (lines 275-311).  An unauthenticated
caller gets an error; otherwise the delete query removes exactly the rows
matching both `id` and the caller's `user_id` (a non-owner's delete matches
no row) and the action reports success either way. -/
def deletePoll (db : DB) (user : Option String) (id : String) : Option String × DB :=
  match user with
  | none => (some "You must be logged in to delete a poll.", db)
  | some u => (none, ⟨db.polls.filter (fun p => !(p.id == id && p.userId == u)), db.votes⟩)

/-- Embedding of the server action `updatePoll(pollId, formData)` from
`src/app/lib/actions/poll-actions.ts` (lines 339-391).  Validates with
`updatePollSchema`, requires an authenticated caller, then the update query
rewrites question/options on exactly the rows matching both `pollId` and the
caller's `user_id` (a non-owner's update matches no row) and the action
reports success either way; a storage error message is returned verbatim. -/
def updatePoll (db : DB) (user : Option String) (pollId question : String)
    (rawOptions : List String) (updateResult : Option String) : Option String × DB :=
  let options := rawOptions.filter (fun o => o != "")
  match updatePollParse pollId question options with
  | some m => (some m, db)
  | none =>
    match user with
    | none => (some "You must be logged in to update a poll.", db)
    | some u =>
      match updateResult with
      | some msg => (some msg, db)
      | none =>
        (none,
          ⟨db.polls.map (fun p =>
            if p.id == pollId && p.userId == u then
              ⟨p.id, p.userId, question, options, p.expiresAt⟩
            else p), db.votes⟩)

/-- Number of Vote rows for the pair (poll `pid`, authenticated voter `u`). -/
def countUserVotes (db : DB) (pid u : String) : Nat :=
  (db.votes.filter (fun v => v.pollId == pid && v.userId == some u)).length

/-- Increment slot `i` of a list of counters (the array write
`voteCounts[vote.option_index]++`). -/
def bump : List Nat → Nat → List Nat
  | [], _ => []
  | c :: cs, 0 => (c + 1) :: cs
  | c :: cs, Nat.succ n => c :: bump cs n

/-- One iteration of the counting loop of `getPollResults`
(`src/lib/poll-client.ts` lines 157-161): bump the slot of a vote whose
`option_index` lies in `[0, numOptions)`; out-of-range indices are
skipped. -/
def bumpStep (numOptions : Nat) (acc : List Nat) (v : Int) : List Nat :=
  if 0 ≤ v ∧ v < (numOptions : Int) then bump acc v.toNat else acc

/-- Embedding of the counting loop of `getPollResults`
(`src/lib/poll-client.ts` lines 156-161): start from
`new Array(options.length).fill(0)` and fold `bumpStep` over the votes. -/
def voteCounts (numOptions : Nat) (votes : List Int) : List Nat :=
  votes.foldl (bumpStep numOptions) (List.replicate numOptions 0)

/-- Embedding of `Math.round((voteCounts[index] / totalVotes) * 100)` on
exact rationals: `(200 * c + total) / (2 * total)` in natural division equals
`floor(100 * c / total + 1 / 2)`, which is `Math.round` for non-negative
arguments. -/
def roundPct (c total : Nat) : Nat := (200 * c + total) / (2 * total)

/-- One entry of the tallied results: `{ text, votes, percentage }`. -/
structure OptionResult where
  text : String
  votes : Nat
  percentage : Nat
deriving Repr, DecidableEq

/-- Embedding of the `options.map((option, index) => ...)` step of
`getPollResults` (lines 166-171), pairing each option with its count and
percentage (`0` for every option when there are no votes). -/
def tallyOptions : List String → List Nat → Nat → List OptionResult
  | o :: os, c :: cs, total =>
      ⟨o, c, if 0 < total then roundPct c total else 0⟩ :: tallyOptions os cs total
  | _, _, _ => []

/-- The tally computed by `getPollResults` (lines 156-171) from a poll's
options and the `option_index` column of its votes: the per-option results
and `totalVotes`. -/
def getPollResultsTally (options : List String) (votes : List Int) :
    List OptionResult × Nat :=
  let counts := voteCounts options.length votes
  let total := counts.sum
  (tallyOptions options counts total, total)

theorem mapGet_mapSet_self (m : RLMap) (k : String) (v : Bucket) :
    mapGet (mapSet m k v) k = some v := by
  induction m with
  | nil => simp [mapGet, mapSet]
  | cons hd tl ih =>
      obtain ⟨k', v'⟩ := hd
      by_cases h : k' = k
      · simp [mapGet, mapSet, h]
      · simp [mapGet, mapSet, h, ih]

theorem mapSet_mapSet (m : RLMap) (k : String) (v v' : Bucket) :
    mapSet (mapSet m k v) k v' = mapSet m k v' := by
  induction m with
  | nil => simp [mapSet]
  | cons hd tl ih =>
      obtain ⟨k'', v''⟩ := hd
      by_cases h : k'' = k
      · simp [mapSet, h]
      · simp [mapSet, h, ih]

theorem rateLimit_fresh (m : RLMap) (k : String) (maxR w now : Int)
    (h : mapGet m k = none) :
    rateLimit m k maxR w now =
      (⟨true, maxR - 1, now + w⟩, mapSet m k ⟨1, now + w⟩) := by
  simp [rateLimit, h]

theorem rateLimit_reset (m : RLMap) (k : String) (maxR w now : Int) (b : Bucket)
    (h : mapGet m k = some b) (hlate : now > b.resetTime) :
    rateLimit m k maxR w now =
      (⟨true, maxR - 1, now + w⟩, mapSet m k ⟨1, now + w⟩) := by
  simp [rateLimit, h, hlate]

theorem rateLimit_incr (m : RLMap) (k : String) (maxR w now : Int) (b : Bucket)
    (h : mapGet m k = some b) (hin : ¬ now > b.resetTime) (hlt : ¬ b.count ≥ maxR) :
    rateLimit m k maxR w now =
      (⟨true, maxR - (b.count + 1), b.resetTime⟩, mapSet m k ⟨b.count + 1, b.resetTime⟩) := by
  simp [rateLimit, h, hin, hlt]

theorem rateLimit_denied (m : RLMap) (k : String) (maxR w now : Int) (b : Bucket)
    (h : mapGet m k = some b) (hin : ¬ now > b.resetTime) (hge : b.count ≥ maxR) :
    rateLimit m k maxR w now = (⟨false, 0, b.resetTime⟩, m) := by
  simp [rateLimit, h, hin, hge]

theorem submitVote_parse_fail (db : DB) (rl : RLMap) (user : Option String)
    (now : Int) (pid : String) (idx : Int) (ins : Option String) (m : String)
    (h : voteParse pid idx = some m) :
    submitVote db rl user now pid idx ins = (some m, db, rl) := by
  simp [submitVote, h]

theorem submitVote_rate_denied (db : DB) (rl : RLMap) (user : Option String)
    (now : Int) (pid : String) (idx : Int) (ins : Option String)
    (hp : voteParse pid idx = none)
    (hr : (rateLimit rl (voteKey user pid) 5 60000 now).1.success = false) :
    submitVote db rl user now pid idx ins =
      (some "Too many votes. Please wait before voting again.", db,
        (rateLimit rl (voteKey user pid) 5 60000 now).2) := by
  simp [submitVote, hp, hr]

theorem submitVote_dup (db : DB) (rl : RLMap) (user : Option String)
    (now : Int) (pid : String) (idx : Int) (ins : Option String)
    (hp : voteParse pid idx = none)
    (hr : (rateLimit rl (voteKey user pid) 5 60000 now).1.success = true)
    (hd : hasUserVote db user pid = true) :
    submitVote db rl user now pid idx ins =
      (some "You have already voted on this poll.", db,
        (rateLimit rl (voteKey user pid) 5 60000 now).2) := by
  simp [submitVote, hp, hr, hd]

theorem submitVote_poll_missing (db : DB) (rl : RLMap) (user : Option String)
    (now : Int) (pid : String) (idx : Int) (ins : Option String)
    (hp : voteParse pid idx = none)
    (hr : (rateLimit rl (voteKey user pid) 5 60000 now).1.success = true)
    (hd : hasUserVote db user pid = false)
    (hf : findPoll db pid = none) :
    submitVote db rl user now pid idx ins =
      (some "Poll not found.", db,
        (rateLimit rl (voteKey user pid) 5 60000 now).2) := by
  simp [submitVote, hp, hr, hd, hf]

theorem submitVote_bad_index (db : DB) (rl : RLMap) (user : Option String)
    (now : Int) (pid : String) (idx : Int) (ins : Option String) (poll : Poll)
    (hp : voteParse pid idx = none)
    (hr : (rateLimit rl (voteKey user pid) 5 60000 now).1.success = true)
    (hd : hasUserVote db user pid = false)
    (hf : findPoll db pid = some poll)
    (hb : idx ≥ (poll.options.length : Int)) :
    submitVote db rl user now pid idx ins =
      (some "Invalid option selected.", db,
        (rateLimit rl (voteKey user pid) 5 60000 now).2) := by
  simp [submitVote, hp, hr, hd, hf, hb]

theorem submitVote_storage_error (db : DB) (rl : RLMap) (user : Option String)
    (now : Int) (pid : String) (idx : Int) (msg : String) (poll : Poll)
    (hp : voteParse pid idx = none)
    (hr : (rateLimit rl (voteKey user pid) 5 60000 now).1.success = true)
    (hd : hasUserVote db user pid = false)
    (hf : findPoll db pid = some poll)
    (hb : ¬ idx ≥ (poll.options.length : Int)) :
    submitVote db rl user now pid idx (some msg) =
      (some msg, db, (rateLimit rl (voteKey user pid) 5 60000 now).2) := by
  simp [submitVote, hp, hr, hd, hf, hb]

theorem submitVote_success (db : DB) (rl : RLMap) (user : Option String)
    (now : Int) (pid : String) (idx : Int) (poll : Poll)
    (hp : voteParse pid idx = none)
    (hr : (rateLimit rl (voteKey user pid) 5 60000 now).1.success = true)
    (hd : hasUserVote db user pid = false)
    (hf : findPoll db pid = some poll)
    (hb : ¬ idx ≥ (poll.options.length : Int)) :
    submitVote db rl user now pid idx none =
      (none, ⟨db.polls, db.votes ++ [⟨pid, user, idx⟩]⟩,
        (rateLimit rl (voteKey user pid) 5 60000 now).2) := by
  simp [submitVote, hp, hr, hd, hf, hb]

theorem castVote_parse_fail (db : DB) (user : Option String) (now : Int)
    (pid : String) (idx : Int) (ins : Option String) (m : String)
    (h : voteParse pid idx = some m) :
    castVote db user now pid idx ins = ((false, some m), db) := by
  simp [castVote, h]

theorem castVote_poll_missing (db : DB) (user : Option String) (now : Int)
    (pid : String) (idx : Int) (ins : Option String)
    (hp : voteParse pid idx = none)
    (hf : findPoll db pid = none) :
    castVote db user now pid idx ins = ((false, some "Poll not found"), db) := by
  simp [castVote, hp, hf]

theorem castVote_expired (db : DB) (user : Option String) (now : Int)
    (pid : String) (idx : Int) (ins : Option String) (poll : Poll)
    (hp : voteParse pid idx = none)
    (hf : findPoll db pid = some poll)
    (he : pollExpired poll.expiresAt now = true) :
    castVote db user now pid idx ins = ((false, some "This poll has expired"), db) := by
  simp [castVote, hp, hf, he]

theorem castVote_bad_index (db : DB) (user : Option String) (now : Int)
    (pid : String) (idx : Int) (ins : Option String) (poll : Poll)
    (hp : voteParse pid idx = none)
    (hf : findPoll db pid = some poll)
    (he : pollExpired poll.expiresAt now = false)
    (hb : idx < 0 ∨ idx ≥ (poll.options.length : Int)) :
    castVote db user now pid idx ins = ((false, some "Invalid option selected"), db) := by
  simp [castVote, hp, hf, he, hb]

theorem castVote_dup (db : DB) (user : Option String) (now : Int)
    (pid : String) (idx : Int) (ins : Option String) (poll : Poll)
    (hp : voteParse pid idx = none)
    (hf : findPoll db pid = some poll)
    (he : pollExpired poll.expiresAt now = false)
    (hb : ¬ (idx < 0 ∨ idx ≥ (poll.options.length : Int)))
    (hd : hasUserVote db user pid = true) :
    castVote db user now pid idx ins =
      ((false, some "You have already voted on this poll"), db) := by
  simp [castVote, hp, hf, he, hb, hd]

theorem castVote_storage_error (db : DB) (user : Option String) (now : Int)
    (pid : String) (idx : Int) (msg : String) (poll : Poll)
    (hp : voteParse pid idx = none)
    (hf : findPoll db pid = some poll)
    (he : pollExpired poll.expiresAt now = false)
    (hb : ¬ (idx < 0 ∨ idx ≥ (poll.options.length : Int)))
    (hd : hasUserVote db user pid = false) :
    castVote db user now pid idx (some msg) =
      ((false, some "Failed to submit vote"), db) := by
  simp [castVote, hp, hf, he, hb, hd]

theorem castVote_success (db : DB) (user : Option String) (now : Int)
    (pid : String) (idx : Int) (poll : Poll)
    (hp : voteParse pid idx = none)
    (hf : findPoll db pid = some poll)
    (he : pollExpired poll.expiresAt now = false)
    (hb : ¬ (idx < 0 ∨ idx ≥ (poll.options.length : Int)))
    (hd : hasUserVote db user pid = false) :
    castVote db user now pid idx none =
      ((true, none), ⟨db.polls, db.votes ++ [⟨pid, user, idx⟩]⟩) := by
  simp [castVote, hp, hf, he, hb, hd]

theorem submitVote_db_cases (db : DB) (rl : RLMap) (user : Option String)
    (now : Int) (pid : String) (idx : Int) (ins : Option String) :
    (submitVote db rl user now pid idx ins).2.1 = db ∨
    ((submitVote db rl user now pid idx ins).2.1 =
        ⟨db.polls, db.votes ++ [⟨pid, user, idx⟩]⟩ ∧
      hasUserVote db user pid = false) := by
  cases hp : voteParse pid idx with
  | some m => rw [submitVote_parse_fail db rl user now pid idx ins m hp]; left; rfl
  | none =>
    cases hr : (rateLimit rl (voteKey user pid) 5 60000 now).1.success with
    | false => rw [submitVote_rate_denied db rl user now pid idx ins hp hr]; left; rfl
    | true =>
      cases hd : hasUserVote db user pid with
      | true => rw [submitVote_dup db rl user now pid idx ins hp hr hd]; left; rfl
      | false =>
        cases hf : findPoll db pid with
        | none => rw [submitVote_poll_missing db rl user now pid idx ins hp hr hd hf]; left; rfl
        | some poll =>
          by_cases hb : idx ≥ (poll.options.length : Int)
          · rw [submitVote_bad_index db rl user now pid idx ins poll hp hr hd hf hb]; left; rfl
          · cases ins with
            | some msg =>
                rw [submitVote_storage_error db rl user now pid idx msg poll hp hr hd hf hb]
                left; rfl
            | none =>
                rw [submitVote_success db rl user now pid idx poll hp hr hd hf hb]
                right; exact ⟨rfl, rfl⟩

theorem castVote_db_cases (db : DB) (user : Option String)
    (now : Int) (pid : String) (idx : Int) (ins : Option String) :
    (castVote db user now pid idx ins).2 = db ∨
    ((castVote db user now pid idx ins).2 =
        ⟨db.polls, db.votes ++ [⟨pid, user, idx⟩]⟩ ∧
      hasUserVote db user pid = false) := by
  cases hp : voteParse pid idx with
  | some m => rw [castVote_parse_fail db user now pid idx ins m hp]; left; rfl
  | none =>
    cases hf : findPoll db pid with
    | none => rw [castVote_poll_missing db user now pid idx ins hp hf]; left; rfl
    | some poll =>
      cases he : pollExpired poll.expiresAt now with
      | true => rw [castVote_expired db user now pid idx ins poll hp hf he]; left; rfl
      | false =>
        by_cases hb : idx < 0 ∨ idx ≥ (poll.options.length : Int)
        · rw [castVote_bad_index db user now pid idx ins poll hp hf he hb]; left; rfl
        · cases hd : hasUserVote db user pid with
          | true => rw [castVote_dup db user now pid idx ins poll hp hf he hb hd]; left; rfl
          | false =>
            cases ins with
            | some msg =>
                rw [castVote_storage_error db user now pid idx msg poll hp hf he hb hd]
                left; rfl
            | none =>
                rw [castVote_success db user now pid idx poll hp hf he hb hd]
                right; exact ⟨rfl, rfl⟩

theorem countUserVotes_eq_zero_iff (db : DB) (pid u : String) :
    countUserVotes db pid u = 0 ↔ findUserVote db pid u = none := by
  simp only [countUserVotes, findUserVote, List.length_eq_zero, List.filter_eq_nil_iff,
    List.find?_eq_none]

theorem countUserVotes_append (polls : List Poll) (votes : List Vote) (v : Vote)
    (pid u : String) :
    countUserVotes ⟨polls, votes ++ [v]⟩ pid u =
      countUserVotes ⟨polls, votes⟩ pid u +
        (if v.pollId = pid ∧ v.userId = some u then 1 else 0) := by
  simp only [countUserVotes, List.filter_append, List.length_append]
  congr 1
  by_cases h : v.pollId = pid ∧ v.userId = some u
  · obtain ⟨h1, h2⟩ := h
    simp [List.filter, h1, h2]
  · rw [if_neg h]
    have : (v.pollId == pid && v.userId == some u) = false := by
      rcases not_and_or.mp h with h1 | h1 <;> simp [h1]
    simp [List.filter, this]

theorem bump_length (l : List Nat) : ∀ i, (bump l i).length = l.length := by
  induction l with
  | nil => intro i; rfl
  | cons c cs ih =>
      intro i
      cases i with
      | zero => rfl
      | succ n => simp [bump, ih n]

theorem bump_getD_self (l : List Nat) :
    ∀ i, i < l.length → (bump l i).getD i 0 = l.getD i 0 + 1 := by
  induction l with
  | nil => intro i h; simp at h
  | cons c cs ih =>
      intro i h
      cases i with
      | zero => rfl
      | succ n =>
          simp only [bump, List.getD_cons_succ]
          exact ih n (by simpa using h)

theorem bump_getD_ne (l : List Nat) :
    ∀ i j, i ≠ j → (bump l i).getD j 0 = l.getD j 0 := by
  induction l with
  | nil => intro i j _; rfl
  | cons c cs ih =>
      intro i j h
      cases i with
      | zero =>
          cases j with
          | zero => exact absurd rfl h
          | succ m => simp [bump]
      | succ n =>
          cases j with
          | zero => simp [bump]
          | succ m =>
              simp only [bump, List.getD_cons_succ]
              exact ih n m (fun e => h (by rw [e]))

theorem bump_sum (l : List Nat) :
    ∀ i, i < l.length → (bump l i).sum = l.sum + 1 := by
  induction l with
  | nil => intro i h; simp at h
  | cons c cs ih =>
      intro i h
      cases i with
      | zero => simp [bump]; omega
      | succ n =>
          simp only [bump, List.sum_cons]
          rw [ih n (by simpa using h)]
          omega

theorem foldl_bumpStep_length (n : Nat) (votes : List Int) :
    ∀ acc : List Nat, (votes.foldl (bumpStep n) acc).length = acc.length := by
  induction votes with
  | nil => intro acc; rfl
  | cons v vs ih =>
      intro acc
      rw [List.foldl_cons, ih]
      unfold bumpStep
      split
      · exact bump_length acc v.toNat
      · rfl

theorem foldl_bumpStep_getD (n i : Nat) (hi : i < n) (votes : List Int) :
    ∀ acc : List Nat, acc.length = n →
      (votes.foldl (bumpStep n) acc).getD i 0 =
        acc.getD i 0 + (votes.filter (fun v => v == (i : Int))).length := by
  induction votes with
  | nil => intro acc _; simp
  | cons v vs ih =>
      intro acc hlen
      rw [List.foldl_cons]
      have hlen2 : (bumpStep n acc v).length = n := by
        unfold bumpStep
        split
        · rw [bump_length]; exact hlen
        · exact hlen
      rw [ih (bumpStep n acc v) hlen2]
      by_cases hv : v = (i : Int)
      · subst hv
        have hin : 0 ≤ (i : Int) ∧ (i : Int) < (n : Int) :=
          ⟨Int.natCast_nonneg i, by exact_mod_cast hi⟩
        unfold bumpStep
        rw [if_pos hin, Int.toNat_natCast,
          bump_getD_self acc i (by rw [hlen]; exact hi)]
        simp [List.filter_cons]
        omega
      · have hfil : ((v :: vs).filter (fun x => x == (i : Int))) =
            vs.filter (fun x => x == (i : Int)) := by
          simp [List.filter_cons, hv]
        unfold bumpStep
        split
        · rename_i hin
          have hne : v.toNat ≠ i := by
            intro e
            apply hv
            rw [← e, Int.toNat_of_nonneg hin.1]
          rw [bump_getD_ne acc v.toNat i hne, hfil]
        · rw [hfil]

theorem foldl_bumpStep_sum (n : Nat) (votes : List Int) :
    ∀ acc : List Nat, acc.length = n →
      (votes.foldl (bumpStep n) acc).sum =
        acc.sum + (votes.filter (fun v => decide (0 ≤ v ∧ v < (n : Int)))).length := by
  induction votes with
  | nil => intro acc _; simp
  | cons v vs ih =>
      intro acc hlen
      rw [List.foldl_cons]
      have hlen2 : (bumpStep n acc v).length = n := by
        unfold bumpStep
        split
        · rw [bump_length]; exact hlen
        · exact hlen
      rw [ih (bumpStep n acc v) hlen2]
      unfold bumpStep
      by_cases hin : 0 ≤ v ∧ v < (n : Int)
      · rw [if_pos hin]
        have hb : v.toNat < acc.length := by
          rw [hlen]
          omega
        rw [bump_sum acc v.toNat hb]
        simp [List.filter_cons, hin]
        omega
      · rw [if_neg hin]
        simp [List.filter_cons, hin]

theorem voteCounts_length (n : Nat) (votes : List Int) :
    (voteCounts n votes).length = n := by
  unfold voteCounts
  rw [foldl_bumpStep_length]
  exact List.length_replicate n 0

theorem getD_replicate (n i : Nat) : (List.replicate n (0 : Nat)).getD i 0 = 0 := by
  induction n generalizing i with
  | zero => rfl
  | succ m ih =>
      cases i with
      | zero => rfl
      | succ j => simp [List.replicate, ih j]

theorem voteCounts_getD (n : Nat) (votes : List Int) (i : Nat) (hi : i < n) :
    (voteCounts n votes).getD i 0 =
      (votes.filter (fun v => v == (i : Int))).length := by
  unfold voteCounts
  rw [foldl_bumpStep_getD n i hi votes _ (List.length_replicate n 0), getD_replicate]
  omega

theorem voteCounts_sum (n : Nat) (votes : List Int) :
    (voteCounts n votes).sum =
      (votes.filter (fun v => decide (0 ≤ v ∧ v < (n : Int)))).length := by
  unfold voteCounts
  rw [foldl_bumpStep_sum n votes _ (List.length_replicate n 0)]
  simp [List.sum_replicate]

theorem tallyOptions_length : ∀ (os : List String) (cs : List Nat) (total : Nat),
    cs.length = os.length → (tallyOptions os cs total).length = os.length := by
  intro os
  induction os with
  | nil => intro cs total _; cases cs <;> rfl
  | cons o os ih =>
      intro cs total h
      cases cs with
      | nil => simp at h
      | cons c cs2 =>
          simp only [tallyOptions, List.length_cons]
          rw [ih cs2 total (by simpa using h)]

theorem tallyOptions_getD : ∀ (os : List String) (cs : List Nat) (total i : Nat),
    i < os.length → cs.length = os.length →
    (tallyOptions os cs total).getD i ⟨"", 0, 0⟩ =
      ⟨os.getD i "", cs.getD i 0,
        if 0 < total then roundPct (cs.getD i 0) total else 0⟩ := by
  intro os
  induction os with
  | nil => intro cs total i h _; simp at h
  | cons o os ih =>
      intro cs total i h hlen
      cases cs with
      | nil => simp at hlen
      | cons c cs2 =>
          cases i with
          | zero => rfl
          | succ j =>
              simp only [tallyOptions, List.getD_cons_succ]
              exact ih cs2 total j (by simpa using h) (by simpa using hlen)

theorem roundPct_eq_round (c total : Nat) (h : 0 < total) :
    (roundPct c total : ℤ) = round ((100 * (c : ℚ)) / (total : ℚ)) := by
  have ht : ((total : ℚ)) ≠ 0 := by
    exact_mod_cast Nat.pos_iff_ne_zero.mp h
  have key : (100 * (c : ℚ)) / (total : ℚ) + 1 / 2 =
      ((200 * c + total : ℕ) : ℚ) / ((2 * total : ℕ) : ℚ) := by
    push_cast
    field_simp
    ring
  rw [round_eq, key]
  have h2 : (0 : ℚ) ≤ ((200 * c + total : ℕ) : ℚ) / ((2 * total : ℕ) : ℚ) := by positivity
  rw [← Int.natCast_floor_eq_floor h2, Nat.floor_div_eq_div]
  simp [roundPct]

/-- C10: whenever a rate-limiter call is denied (the identifier's bucket has
`count >= maxRequests` and the window has not expired, i.e. `now` is not past
`resetTime`), the call returns `allowed = false`, `remaining = 0`, the stored
`resetTime`, and leaves the bucket map completely unchanged: the denied
identifier's count and resetTime keep their prior values and no other key is
created, modified or removed. -/
theorem rateLimit_denied_leaves_map_unchanged (m : RLMap) (k : String)
    (maxR w now : Int) (b : Bucket)
    (h : mapGet m k = some b) (hin : ¬ now > b.resetTime) (hge : b.count ≥ maxR) :
    rateLimit m k maxR w now = (⟨false, 0, b.resetTime⟩, m) :=
  rateLimit_denied m k maxR w now b h hin hge

/-- Witness for `rateLimit_denied_leaves_map_unchanged` at a concrete denied
call: bucket at count 5, limit 5, call inside the window. -/
theorem rateLimit_denied_leaves_map_unchanged_witness :
    rateLimit [("k", ⟨5, 100⟩)] "k" 5 60000 50 =
      (⟨false, 0, 100⟩, [("k", ⟨5, 100⟩)]) := by
  have h := rateLimit_denied_leaves_map_unchanged [("k", ⟨5, 100⟩)] "k" 5 60000 50
    ⟨5, 100⟩ (by decide) (by decide) (by decide)
  simpa using h

/-- C5: starting from an empty bucket for identifier `k`, five consecutive
rate-limiter calls with `maxRequests = 5` and a 60-second window, all within
the window opened by the first call, return `allowed = true` with remaining
4, 3, 2, 1, 0 in that order, and the sixth call within the same window
returns `allowed = false` with `remaining = 0` and the bucket's `resetAt`
(`t1 + 60000`) unchanged — the final map still holds the bucket
`(count 5, resetTime t1 + 60000)`. -/
theorem rateLimit_five_calls_then_denied (m : RLMap) (k : String)
    (t1 t2 t3 t4 t5 t6 : Int)
    (h0 : mapGet m k = none)
    (h2 : t2 ≤ t1 + 60000) (h3 : t3 ≤ t1 + 60000) (h4 : t4 ≤ t1 + 60000)
    (h5 : t5 ≤ t1 + 60000) (h6 : t6 ≤ t1 + 60000) :
    (rateLimitCalls k 5 60000 m [t1, t2, t3, t4, t5, t6]).1 =
      [⟨true, 4, t1 + 60000⟩, ⟨true, 3, t1 + 60000⟩, ⟨true, 2, t1 + 60000⟩,
        ⟨true, 1, t1 + 60000⟩, ⟨true, 0, t1 + 60000⟩, ⟨false, 0, t1 + 60000⟩] ∧
    (rateLimitCalls k 5 60000 m [t1, t2, t3, t4, t5, t6]).2 =
      mapSet m k ⟨5, t1 + 60000⟩ := by
  have e1 : rateLimit m k 5 60000 t1 =
      (⟨true, 4, t1 + 60000⟩, mapSet m k ⟨1, t1 + 60000⟩) := by
    rw [rateLimit_fresh m k 5 60000 t1 h0]; norm_num
  have g1 : mapGet (mapSet m k ⟨1, t1 + 60000⟩) k = some ⟨1, t1 + 60000⟩ :=
    mapGet_mapSet_self m k _
  have e2 : rateLimit (mapSet m k ⟨1, t1 + 60000⟩) k 5 60000 t2 =
      (⟨true, 3, t1 + 60000⟩, mapSet (mapSet m k ⟨1, t1 + 60000⟩) k ⟨2, t1 + 60000⟩) := by
    rw [rateLimit_incr _ k 5 60000 t2 ⟨1, t1 + 60000⟩ g1
      (show ¬ t2 > t1 + 60000 by omega) (show ¬ (1 : Int) ≥ 5 by decide)]
    norm_num
  have g2 : mapGet (mapSet (mapSet m k ⟨1, t1 + 60000⟩) k ⟨2, t1 + 60000⟩) k =
      some ⟨2, t1 + 60000⟩ := mapGet_mapSet_self _ k _
  have e3 : rateLimit (mapSet (mapSet m k ⟨1, t1 + 60000⟩) k ⟨2, t1 + 60000⟩) k 5 60000 t3 =
      (⟨true, 2, t1 + 60000⟩,
        mapSet (mapSet (mapSet m k ⟨1, t1 + 60000⟩) k ⟨2, t1 + 60000⟩) k ⟨3, t1 + 60000⟩) := by
    rw [rateLimit_incr _ k 5 60000 t3 ⟨2, t1 + 60000⟩ g2
      (show ¬ t3 > t1 + 60000 by omega) (show ¬ (2 : Int) ≥ 5 by decide)]
    norm_num
  have g3 : mapGet (mapSet (mapSet (mapSet m k ⟨1, t1 + 60000⟩) k ⟨2, t1 + 60000⟩) k
      ⟨3, t1 + 60000⟩) k = some ⟨3, t1 + 60000⟩ := mapGet_mapSet_self _ k _
  have e4 : rateLimit (mapSet (mapSet (mapSet m k ⟨1, t1 + 60000⟩) k ⟨2, t1 + 60000⟩) k
      ⟨3, t1 + 60000⟩) k 5 60000 t4 =
      (⟨true, 1, t1 + 60000⟩,
        mapSet (mapSet (mapSet (mapSet m k ⟨1, t1 + 60000⟩) k ⟨2, t1 + 60000⟩) k
          ⟨3, t1 + 60000⟩) k ⟨4, t1 + 60000⟩) := by
    rw [rateLimit_incr _ k 5 60000 t4 ⟨3, t1 + 60000⟩ g3
      (show ¬ t4 > t1 + 60000 by omega) (show ¬ (3 : Int) ≥ 5 by decide)]
    norm_num
  have g4 : mapGet (mapSet (mapSet (mapSet (mapSet m k ⟨1, t1 + 60000⟩) k ⟨2, t1 + 60000⟩) k
      ⟨3, t1 + 60000⟩) k ⟨4, t1 + 60000⟩) k = some ⟨4, t1 + 60000⟩ := mapGet_mapSet_self _ k _
  have e5 : rateLimit (mapSet (mapSet (mapSet (mapSet m k ⟨1, t1 + 60000⟩) k ⟨2, t1 + 60000⟩) k
      ⟨3, t1 + 60000⟩) k ⟨4, t1 + 60000⟩) k 5 60000 t5 =
      (⟨true, 0, t1 + 60000⟩,
        mapSet (mapSet (mapSet (mapSet (mapSet m k ⟨1, t1 + 60000⟩) k ⟨2, t1 + 60000⟩) k
          ⟨3, t1 + 60000⟩) k ⟨4, t1 + 60000⟩) k ⟨5, t1 + 60000⟩) := by
    rw [rateLimit_incr _ k 5 60000 t5 ⟨4, t1 + 60000⟩ g4
      (show ¬ t5 > t1 + 60000 by omega) (show ¬ (4 : Int) ≥ 5 by decide)]
    norm_num
  have g5 : mapGet (mapSet (mapSet (mapSet (mapSet (mapSet m k ⟨1, t1 + 60000⟩) k
      ⟨2, t1 + 60000⟩) k ⟨3, t1 + 60000⟩) k ⟨4, t1 + 60000⟩) k ⟨5, t1 + 60000⟩) k =
      some ⟨5, t1 + 60000⟩ := mapGet_mapSet_self _ k _
  have e6 : rateLimit (mapSet (mapSet (mapSet (mapSet (mapSet m k ⟨1, t1 + 60000⟩) k
      ⟨2, t1 + 60000⟩) k ⟨3, t1 + 60000⟩) k ⟨4, t1 + 60000⟩) k ⟨5, t1 + 60000⟩) k 5 60000 t6 =
      (⟨false, 0, t1 + 60000⟩,
        mapSet (mapSet (mapSet (mapSet (mapSet m k ⟨1, t1 + 60000⟩) k ⟨2, t1 + 60000⟩) k
          ⟨3, t1 + 60000⟩) k ⟨4, t1 + 60000⟩) k ⟨5, t1 + 60000⟩) :=
    rateLimit_denied _ k 5 60000 t6 ⟨5, t1 + 60000⟩ g5
      (show ¬ t6 > t1 + 60000 by omega) (show (5 : Int) ≥ 5 by decide)
  refine ⟨?_, ?_⟩
  · simp only [rateLimitCalls, e1, e2, e3, e4, e5, e6]
  · simp only [rateLimitCalls, e1, e2, e3, e4, e5, e6]
    simp only [mapSet_mapSet]

/-- Witness for `rateLimit_five_calls_then_denied`: six calls at times
0, 10, 20, 30, 40, 50 from the empty map. -/
theorem rateLimit_five_calls_then_denied_witness :
    (rateLimitCalls "k" 5 60000 [] [0, 10, 20, 30, 40, 50]).1 =
      [⟨true, 4, 60000⟩, ⟨true, 3, 60000⟩, ⟨true, 2, 60000⟩,
        ⟨true, 1, 60000⟩, ⟨true, 0, 60000⟩, ⟨false, 0, 60000⟩] ∧
    (rateLimitCalls "k" 5 60000 [] [0, 10, 20, 30, 40, 50]).2 =
      [("k", ⟨5, 60000⟩)] := by
  have h := rateLimit_five_calls_then_denied [] "k" 0 10 20 30 40 50 rfl
    (by omega) (by omega) (by omega) (by omega) (by omega)
  simpa [mapSet] using h

/-- C6 counterexample: the claim says a call made exactly at the stored
`resetAt` starts a fresh window (allowed, count reset to 1).  In the code the
reset condition is `now > current.resetTime`, strictly: at `now = resetTime`
a full bucket still denies the request.  Concretely, with bucket
`(count 5, resetTime 100)` and a call at `now = 100` with `maxRequests = 5`,
the code returns `allowed = false` (the claim predicts `allowed = true` with
`remaining = 4` and a replaced bucket). -/
theorem rateLimit_at_resetAt_not_fresh :
    rateLimit [("k", ⟨5, 100⟩)] "k" 5 60000 100 =
      (⟨false, 0, 100⟩, [("k", ⟨5, 100⟩)]) ∧
    (rateLimit [("k", ⟨5, 100⟩)] "k" 5 60000 100).1.success ≠ true := by
  constructor
  · simp [rateLimit, mapGet]
  · simp [rateLimit, mapGet]

/-- C6 (amended): if no bucket exists for the identifier, or the current time
is strictly after the bucket's `resetTime`, the bucket is created or replaced
with count 1 and `resetTime = now + windowMs`, and the call returns
`allowed = true` with `remaining = maxRequests - 1`.  A call made exactly at
the stored `resetAt` does not start a fresh window. -/
theorem rateLimit_fresh_window (m : RLMap) (k : String) (maxR w now : Int)
    (h : mapGet m k = none ∨ ∃ b, mapGet m k = some b ∧ now > b.resetTime) :
    rateLimit m k maxR w now =
      (⟨true, maxR - 1, now + w⟩, mapSet m k ⟨1, now + w⟩) := by
  rcases h with h | ⟨b, hb, hlate⟩
  · exact rateLimit_fresh m k maxR w now h
  · exact rateLimit_reset m k maxR w now b hb hlate

/-- Witness for `rateLimit_fresh_window`: a call strictly after the stored
`resetTime` replaces the bucket and is allowed. -/
theorem rateLimit_fresh_window_witness :
    rateLimit [("k", ⟨5, 100⟩)] "k" 5 60000 101 =
      (⟨true, 4, 60101⟩, [("k", ⟨1, 60101⟩)]) := by
  have h := rateLimit_fresh_window [("k", ⟨5, 100⟩)] "k" 5 60000 101
    (Or.inr ⟨⟨5, 100⟩, by simp [mapGet], by decide⟩)
  simpa [mapSet] using h

/-- C1 (code bug): the server action `submitVote` performs no expiry check, so
a vote on a poll whose expiration timestamp is non-null and in the past — with
a valid option index, a fresh rate-limit bucket and no prior vote — succeeds
(`error = null`) and a Vote row is created, contradicting the repository's own
`POLL_EXPIRATION_FEATURE.md` ("Updated submitVote: Validates poll expiration
before allowing votes") and `test-expiration.md` ("Server-side validation
prevents expired poll votes").  The client path `castVote` does enforce
expiry on the same input.  The poll here expired at time 10 and the vote is
cast at time 1000. -/
theorem submitVote_accepts_expired_poll :
    pollExpired (some 10) 1000 = true ∧
    submitVote
        ⟨[⟨"00000000-0000-0000-0000-000000000000", "owner1", "Q", ["A", "B"], some 10⟩], []⟩
        [] (some "voter1") 1000 "00000000-0000-0000-0000-000000000000" 0 none =
      (none,
        ⟨[⟨"00000000-0000-0000-0000-000000000000", "owner1", "Q", ["A", "B"], some 10⟩],
          [⟨"00000000-0000-0000-0000-000000000000", some "voter1", 0⟩]⟩,
        [("vote:voter1", ⟨1, 61000⟩)]) ∧
    castVote
        ⟨[⟨"00000000-0000-0000-0000-000000000000", "owner1", "Q", ["A", "B"], some 10⟩], []⟩
        (some "voter1") 1000 "00000000-0000-0000-0000-000000000000" 0 none =
      ((false, some "This poll has expired"),
        ⟨[⟨"00000000-0000-0000-0000-000000000000", "owner1", "Q", ["A", "B"], some 10⟩], []⟩) := by
  refine ⟨rfl, rfl, rfl⟩

/-- C2 counterexample: the claim's fixed order puts Existence before
Rate-limit, so a rate-limited attempt on a nonexistent poll would have to
report the not-found error.  In `submitVote` the rate limiter runs first: on
an empty store with the caller's bucket already at its limit, the result is
the rate-limit message, not `Poll not found.`.  (Also, `submitVote` never
checks expiry at all, so the claimed six-step order cannot be its order.) -/
theorem submitVote_rate_limit_before_existence :
    (submitVote ⟨[], []⟩ [("vote:voter1", ⟨5, 60000⟩)] (some "voter1") 100
        "00000000-0000-0000-0000-000000000000" 0 none).1 =
      some "Too many votes. Please wait before voting again." ∧
    findPoll ⟨[], []⟩ "00000000-0000-0000-0000-000000000000" = none ∧
    ("Too many votes. Please wait before voting again." : String) ≠ "Poll not found." := by
  refine ⟨rfl, rfl, by decide⟩

/-- C2 (amended): the two vote paths evaluate their checks in fixed but
different orders, and neither is the claimed one.  `submitVote` evaluates
structural validation, rate limit, duplicate check, existence, option
bounds — with no expiry check (its success case below has no hypothesis on
the poll's expiration).  `castVote` evaluates structural validation,
existence, expiry, option bounds, duplicate check — with no rate limit.  So
Expiry precedes Option-bounds in `castVote` (an expired poll reports
"expired" even for an out-of-range index), Rate-limit precedes
Duplicate-check in `submitVote`, and each function's result is a
deterministic cascade of its own checks. -/
theorem vote_checks_actual_order (db : DB) (rl : RLMap) (user : Option String)
    (now : Int) (pid : String) (idx : Int) (ins : Option String) :
    (∀ m, voteParse pid idx = some m →
      submitVote db rl user now pid idx ins = (some m, db, rl) ∧
      castVote db user now pid idx ins = ((false, some m), db)) ∧
    (voteParse pid idx = none →
      (rateLimit rl (voteKey user pid) 5 60000 now).1.success = false →
      submitVote db rl user now pid idx ins =
        (some "Too many votes. Please wait before voting again.", db,
          (rateLimit rl (voteKey user pid) 5 60000 now).2)) ∧
    (voteParse pid idx = none →
      (rateLimit rl (voteKey user pid) 5 60000 now).1.success = true →
      hasUserVote db user pid = true →
      submitVote db rl user now pid idx ins =
        (some "You have already voted on this poll.", db,
          (rateLimit rl (voteKey user pid) 5 60000 now).2)) ∧
    (voteParse pid idx = none →
      (rateLimit rl (voteKey user pid) 5 60000 now).1.success = true →
      hasUserVote db user pid = false →
      findPoll db pid = none →
      submitVote db rl user now pid idx ins =
        (some "Poll not found.", db,
          (rateLimit rl (voteKey user pid) 5 60000 now).2)) ∧
    (∀ poll, voteParse pid idx = none →
      (rateLimit rl (voteKey user pid) 5 60000 now).1.success = true →
      hasUserVote db user pid = false →
      findPoll db pid = some poll →
      idx ≥ (poll.options.length : Int) →
      submitVote db rl user now pid idx ins =
        (some "Invalid option selected.", db,
          (rateLimit rl (voteKey user pid) 5 60000 now).2)) ∧
    (∀ poll, voteParse pid idx = none →
      (rateLimit rl (voteKey user pid) 5 60000 now).1.success = true →
      hasUserVote db user pid = false →
      findPoll db pid = some poll →
      ¬ idx ≥ (poll.options.length : Int) →
      submitVote db rl user now pid idx none =
        (none, ⟨db.polls, db.votes ++ [⟨pid, user, idx⟩]⟩,
          (rateLimit rl (voteKey user pid) 5 60000 now).2)) ∧
    (voteParse pid idx = none → findPoll db pid = none →
      castVote db user now pid idx ins = ((false, some "Poll not found"), db)) ∧
    (∀ poll, voteParse pid idx = none → findPoll db pid = some poll →
      pollExpired poll.expiresAt now = true →
      castVote db user now pid idx ins = ((false, some "This poll has expired"), db)) ∧
    (∀ poll, voteParse pid idx = none → findPoll db pid = some poll →
      pollExpired poll.expiresAt now = false →
      (idx < 0 ∨ idx ≥ (poll.options.length : Int)) →
      castVote db user now pid idx ins = ((false, some "Invalid option selected"), db)) ∧
    (∀ poll, voteParse pid idx = none → findPoll db pid = some poll →
      pollExpired poll.expiresAt now = false →
      ¬ (idx < 0 ∨ idx ≥ (poll.options.length : Int)) →
      hasUserVote db user pid = true →
      castVote db user now pid idx ins =
        ((false, some "You have already voted on this poll"), db)) ∧
    (∀ poll, voteParse pid idx = none → findPoll db pid = some poll →
      pollExpired poll.expiresAt now = false →
      ¬ (idx < 0 ∨ idx ≥ (poll.options.length : Int)) →
      hasUserVote db user pid = false →
      castVote db user now pid idx none =
        ((true, none), ⟨db.polls, db.votes ++ [⟨pid, user, idx⟩]⟩)) := by
  refine ⟨fun m h => ⟨submitVote_parse_fail db rl user now pid idx ins m h,
      castVote_parse_fail db user now pid idx ins m h⟩,
    fun hp hr => submitVote_rate_denied db rl user now pid idx ins hp hr,
    fun hp hr hd => submitVote_dup db rl user now pid idx ins hp hr hd,
    fun hp hr hd hf => submitVote_poll_missing db rl user now pid idx ins hp hr hd hf,
    fun poll hp hr hd hf hb => submitVote_bad_index db rl user now pid idx ins poll hp hr hd hf hb,
    fun poll hp hr hd hf hb => submitVote_success db rl user now pid idx poll hp hr hd hf hb,
    fun hp hf => castVote_poll_missing db user now pid idx ins hp hf,
    fun poll hp hf he => castVote_expired db user now pid idx ins poll hp hf he,
    fun poll hp hf he hb => castVote_bad_index db user now pid idx ins poll hp hf he hb,
    fun poll hp hf he hb hd => castVote_dup db user now pid idx ins poll hp hf he hb hd,
    fun poll hp hf he hb hd => castVote_success db user now pid idx poll hp hf he hb hd⟩

/-- Witness for `vote_checks_actual_order`: its rate-limit conjunct applied to
a concrete rate-limited attempt on an empty store. -/
theorem vote_checks_actual_order_witness :
    submitVote ⟨[], []⟩ [("vote:voter1", ⟨5, 60000⟩)] (some "voter1") 100
        "00000000-0000-0000-0000-000000000000" 0 none =
      (some "Too many votes. Please wait before voting again.", ⟨[], []⟩,
        [("vote:voter1", ⟨5, 60000⟩)]) := by
  have h := (vote_checks_actual_order ⟨[], []⟩ [("vote:voter1", ⟨5, 60000⟩)]
    (some "voter1") 100 "00000000-0000-0000-0000-000000000000" 0 none).2.1 rfl rfl
  simpa using h

/-- C3 counterexample: the claim says every subsequent vote attempt by a
voter who already voted fails with DuplicateVote.  In `submitVote` the rate
limiter runs before the duplicate check, so a subsequent attempt whose
bucket is exhausted reports the rate-limit message instead.  The state is
reachable: the first successful vote and four subsequent duplicate attempts
each consume the `vote:voter1` budget, so the bucket is at count 5 when the
next attempt arrives inside the window. -/
theorem duplicate_attempt_can_report_rate_limited :
    (findUserVote
        ⟨[⟨"00000000-0000-0000-0000-000000000000", "owner1", "Q", ["A", "B"], none⟩],
          [⟨"00000000-0000-0000-0000-000000000000", some "voter1", 0⟩]⟩
        "00000000-0000-0000-0000-000000000000" "voter1").isSome = true ∧
    (submitVote
        ⟨[⟨"00000000-0000-0000-0000-000000000000", "owner1", "Q", ["A", "B"], none⟩],
          [⟨"00000000-0000-0000-0000-000000000000", some "voter1", 0⟩]⟩
        [("vote:voter1", ⟨5, 60000⟩)] (some "voter1") 100
        "00000000-0000-0000-0000-000000000000" 0 none).1 =
      some "Too many votes. Please wait before voting again." ∧
    ("Too many votes. Please wait before voting again." : String) ≠
      "You have already voted on this poll." := by
  refine ⟨rfl, rfl, by decide⟩

/-- C3 (amended): once a Vote by authenticated voter `u` exists on poll
`pid`, every subsequent attempt by `u` fails — with DuplicateVote when it
passes structural validation and the rate limiter (`submitVote`), or when
the poll is found, unexpired and the index is in bounds (`castVote`); a
structurally invalid, rate-limited, expired or out-of-bounds attempt fails
with that earlier check's error instead.  In every case the store (hence
the tally) is unchanged.  The at-most-one-Vote invariant for (pid, u) is
preserved by both vote paths, and anonymous attempts are never
deduplicated: an anonymous attempt passing the other checks inserts a vote
no matter what votes already exist. -/
theorem vote_duplicate_protection (db : DB) (rl : RLMap) (now : Int)
    (pid : String) (idx : Int) (ins : Option String) (u : String) :
    ((findUserVote db pid u).isSome = true →
      (submitVote db rl (some u) now pid idx ins).2.1 = db ∧
      (submitVote db rl (some u) now pid idx ins).1 ≠ none) ∧
    ((findUserVote db pid u).isSome = true → voteParse pid idx = none →
      (rateLimit rl (voteKey (some u) pid) 5 60000 now).1.success = true →
      (submitVote db rl (some u) now pid idx ins).1 =
        some "You have already voted on this poll.") ∧
    ((findUserVote db pid u).isSome = true →
      (castVote db (some u) now pid idx ins).2 = db ∧
      (castVote db (some u) now pid idx ins).1.1 = false) ∧
    (∀ poll, (findUserVote db pid u).isSome = true → voteParse pid idx = none →
      findPoll db pid = some poll → pollExpired poll.expiresAt now = false →
      ¬ (idx < 0 ∨ idx ≥ (poll.options.length : Int)) →
      (castVote db (some u) now pid idx ins).1.2 =
        some "You have already voted on this poll") ∧
    (countUserVotes db pid u ≤ 1 → ∀ user : Option String,
      countUserVotes (submitVote db rl user now pid idx ins).2.1 pid u ≤ 1 ∧
      countUserVotes (castVote db user now pid idx ins).2 pid u ≤ 1) ∧
    (∀ poll, voteParse pid idx = none →
      (rateLimit rl (voteKey none pid) 5 60000 now).1.success = true →
      findPoll db pid = some poll → ¬ idx ≥ (poll.options.length : Int) →
      submitVote db rl none now pid idx none =
        (none, ⟨db.polls, db.votes ++ [⟨pid, none, idx⟩]⟩,
          (rateLimit rl (voteKey none pid) 5 60000 now).2) ∧
      (pollExpired poll.expiresAt now = false →
        ¬ (idx < 0 ∨ idx ≥ (poll.options.length : Int)) →
        castVote db none now pid idx none =
          ((true, none), ⟨db.polls, db.votes ++ [⟨pid, none, idx⟩]⟩))) := by
  refine ⟨?_, ?_, ?_, ?_, ?_, ?_⟩
  · intro hv
    cases hp : voteParse pid idx with
    | some m =>
        rw [submitVote_parse_fail db rl (some u) now pid idx ins m hp]
        exact ⟨rfl, by simp⟩
    | none =>
      cases hr : (rateLimit rl (voteKey (some u) pid) 5 60000 now).1.success with
      | false =>
          rw [submitVote_rate_denied db rl (some u) now pid idx ins hp hr]
          exact ⟨rfl, by simp⟩
      | true =>
          have hd : hasUserVote db (some u) pid = true := by
            simpa [hasUserVote] using hv
          rw [submitVote_dup db rl (some u) now pid idx ins hp hr hd]
          exact ⟨rfl, by simp⟩
  · intro hv hp hr
    have hd : hasUserVote db (some u) pid = true := by
      simpa [hasUserVote] using hv
    rw [submitVote_dup db rl (some u) now pid idx ins hp hr hd]
  · intro hv
    have hd : hasUserVote db (some u) pid = true := by
      simpa [hasUserVote] using hv
    cases hp : voteParse pid idx with
    | some m =>
        rw [castVote_parse_fail db (some u) now pid idx ins m hp]; exact ⟨rfl, rfl⟩
    | none =>
      cases hf : findPoll db pid with
      | none =>
          rw [castVote_poll_missing db (some u) now pid idx ins hp hf]; exact ⟨rfl, rfl⟩
      | some poll =>
        cases he : pollExpired poll.expiresAt now with
        | true =>
            rw [castVote_expired db (some u) now pid idx ins poll hp hf he]; exact ⟨rfl, rfl⟩
        | false =>
          by_cases hb : idx < 0 ∨ idx ≥ (poll.options.length : Int)
          · rw [castVote_bad_index db (some u) now pid idx ins poll hp hf he hb]
            exact ⟨rfl, rfl⟩
          · rw [castVote_dup db (some u) now pid idx ins poll hp hf he hb hd]
            exact ⟨rfl, rfl⟩
  · intro poll hv hp hf he hb
    have hd : hasUserVote db (some u) pid = true := by
      simpa [hasUserVote] using hv
    rw [castVote_dup db (some u) now pid idx ins poll hp hf he hb hd]
  · intro hle user
    constructor
    · rcases submitVote_db_cases db rl user now pid idx ins with h | ⟨h, hd⟩
      · rw [h]; exact hle
      · rw [h, countUserVotes_append db.polls db.votes ⟨pid, user, idx⟩ pid u]
        by_cases hu : user = some u
        · subst hu
          have hz : countUserVotes db pid u = 0 := by
            rw [countUserVotes_eq_zero_iff]
            simpa [hasUserVote, Option.isSome_iff_ne_none] using hd
          have ee : (⟨db.polls, db.votes⟩ : DB) = db := rfl
          rw [ee, hz]
          simp
        · have : ¬ ((⟨pid, user, idx⟩ : Vote).pollId = pid ∧
              (⟨pid, user, idx⟩ : Vote).userId = some u) := by
            intro hcon
            exact hu hcon.2
          rw [if_neg this]
          have ee : (⟨db.polls, db.votes⟩ : DB) = db := rfl
          rw [ee]
          omega
    · rcases castVote_db_cases db user now pid idx ins with h | ⟨h, hd⟩
      · rw [h]; exact hle
      · rw [h, countUserVotes_append db.polls db.votes ⟨pid, user, idx⟩ pid u]
        by_cases hu : user = some u
        · subst hu
          have hz : countUserVotes db pid u = 0 := by
            rw [countUserVotes_eq_zero_iff]
            simpa [hasUserVote, Option.isSome_iff_ne_none] using hd
          have ee : (⟨db.polls, db.votes⟩ : DB) = db := rfl
          rw [ee, hz]
          simp
        · have : ¬ ((⟨pid, user, idx⟩ : Vote).pollId = pid ∧
              (⟨pid, user, idx⟩ : Vote).userId = some u) := by
            intro hcon
            exact hu hcon.2
          rw [if_neg this]
          have ee : (⟨db.polls, db.votes⟩ : DB) = db := rfl
          rw [ee]
          omega
  · intro poll hp hr hf hb
    refine ⟨submitVote_success db rl none now pid idx poll hp hr rfl hf hb, ?_⟩
    intro he hb2
    exact castVote_success db none now pid idx poll hp hf he hb2 rfl

/-- Witness for `vote_duplicate_protection`: with a prior vote by `voter1`
and a fresh rate-limit bucket, a second attempt reports the duplicate
message. -/
theorem vote_duplicate_protection_witness :
    (submitVote
        ⟨[⟨"00000000-0000-0000-0000-000000000000", "owner1", "Q", ["A", "B"], none⟩],
          [⟨"00000000-0000-0000-0000-000000000000", some "voter1", 0⟩]⟩
        [] (some "voter1") 0 "00000000-0000-0000-0000-000000000000" 1 none).1 =
      some "You have already voted on this poll." := by
  exact (vote_duplicate_protection
    ⟨[⟨"00000000-0000-0000-0000-000000000000", "owner1", "Q", ["A", "B"], none⟩],
      [⟨"00000000-0000-0000-0000-000000000000", some "voter1", 0⟩]⟩
    [] 0 "00000000-0000-0000-0000-000000000000" 1 none "voter1").2.1 rfl rfl rfl

theorem map_eq_self_of_mem {α : Type} (l : List α) (f : α → α)
    (h : ∀ a ∈ l, f a = a) : l.map f = l := by
  induction l with
  | nil => rfl
  | cons hd tl ih =>
      simp only [List.map_cons]
      rw [h hd (List.mem_cons_self hd tl), ih (fun a ha => h a (List.mem_cons_of_mem hd ha))]

/-- C4 counterexample: the claim says a non-owner delete or update fails with
Unauthorized.  In the code both queries filter on `user_id = caller`, so a
non-owner's mutation matches zero rows and the action returns success
(`error = null`) — the poll record is unchanged, but no Unauthorized error is
reported.  Here `bob` deletes and updates a poll owned by `alice` and both
calls return `none` as the error. -/
theorem nonowner_mutation_reports_success :
    deletePoll
        ⟨[⟨"00000000-0000-0000-0000-000000000000", "alice", "Q", ["A", "B"], none⟩], []⟩
        (some "bob") "00000000-0000-0000-0000-000000000000" =
      (none, ⟨[⟨"00000000-0000-0000-0000-000000000000", "alice", "Q", ["A", "B"], none⟩], []⟩) ∧
    updatePoll
        ⟨[⟨"00000000-0000-0000-0000-000000000000", "alice", "Q", ["A", "B"], none⟩], []⟩
        (some "bob") "00000000-0000-0000-0000-000000000000" "New question" ["C", "D"] none =
      (none, ⟨[⟨"00000000-0000-0000-0000-000000000000", "alice", "Q", ["A", "B"], none⟩], []⟩) := by
  exact ⟨rfl, rfl⟩

/-- C4 (amended): an unauthenticated delete or update fails with the
login-required error and leaves the store unchanged.  An authenticated
caller who owns no poll with the given id leaves every poll record unchanged
as well — the mutation matches zero rows — but the action reports success
(`error = null`) rather than an Unauthorized error. -/
theorem nonowner_mutations_leave_polls_unchanged (db : DB) (pid q : String)
    (rawOptions : List String) :
    (deletePoll db none pid = (some "You must be logged in to delete a poll.", db)) ∧
    (updatePollParse pid q (rawOptions.filter (fun o => o != "")) = none →
      updatePoll db none pid q rawOptions none =
        (some "You must be logged in to update a poll.", db)) ∧
    (∀ u, (∀ p ∈ db.polls, p.id = pid → p.userId ≠ u) →
      deletePoll db (some u) pid = (none, db) ∧
      (updatePollParse pid q (rawOptions.filter (fun o => o != "")) = none →
        updatePoll db (some u) pid q rawOptions none = (none, db))) := by
  refine ⟨rfl, ?_, ?_⟩
  · intro hv
    simp [updatePoll, hv]
  · intro u hno
    have hkeep : ∀ p ∈ db.polls, (!(p.id == pid && p.userId == u)) = true := by
      intro p hp
      by_cases hid : p.id = pid
      · have := hno p hp hid
        simp [hid, this]
      · simp [hid]
    have hmap : ∀ p ∈ db.polls,
        (if p.id == pid && p.userId == u then
            (⟨p.id, p.userId, q, rawOptions.filter (fun o => o != ""), p.expiresAt⟩ : Poll)
          else p) = p := by
      intro p hp
      have := hkeep p hp
      simp only [Bool.not_eq_true'] at this
      rw [this]
      rfl
    constructor
    · have hf : db.polls.filter (fun p => !(p.id == pid && p.userId == u)) = db.polls :=
        List.filter_eq_self.mpr hkeep
      simp only [deletePoll, hf]
    · intro hv
      have hm : db.polls.map (fun p =>
          if p.id == pid && p.userId == u then
            (⟨p.id, p.userId, q, rawOptions.filter (fun o => o != ""), p.expiresAt⟩ : Poll)
          else p) = db.polls :=
        map_eq_self_of_mem db.polls _ hmap
      simp only [updatePoll, hv, hm]

/-- Witness for `nonowner_mutations_leave_polls_unchanged`: concrete store
with a poll owned by `alice` and caller `bob`. -/
theorem nonowner_mutations_leave_polls_unchanged_witness :
    deletePoll
        ⟨[⟨"00000000-0000-0000-0000-000000000000", "alice", "Q", ["A", "B"], none⟩], []⟩
        (some "bob") "00000000-0000-0000-0000-000000000000" =
      (none,
        ⟨[⟨"00000000-0000-0000-0000-000000000000", "alice", "Q", ["A", "B"], none⟩], []⟩) :=
  ((nonowner_mutations_leave_polls_unchanged
      ⟨[⟨"00000000-0000-0000-0000-000000000000", "alice", "Q", ["A", "B"], none⟩], []⟩
      "00000000-0000-0000-0000-000000000000" "New question" ["C", "D"]).2.2 "bob"
    (by intro p hp hid; simp at hp; subst hp; decide)).1

/-- C7: the tally of `getPollResults` produces one entry per option; each
entry's vote count is the number of votes whose `option_index` equals that
slot (so out-of-range indices are silently ignored); `totalVotes` is the
number of in-range votes, which equals the sum of the per-slot counts; when
`totalVotes > 0` each percentage is `round(100 * count / totalVotes)`
(computed here on exact rationals, with Mathlib's `round` coinciding with
`Math.round` as floor of `x + 1/2`), and when `totalVotes = 0` every
percentage is `0`, with no division by zero. -/
theorem getPollResultsTally_spec (options : List String) (votes : List Int) :
    ((getPollResultsTally options votes).1.length = options.length) ∧
    ((getPollResultsTally options votes).2 =
      (votes.filter (fun v => decide (0 ≤ v ∧ v < (options.length : Int)))).length) ∧
    ((getPollResultsTally options votes).2 =
      (voteCounts options.length votes).sum) ∧
    (∀ i, i < options.length →
      (getPollResultsTally options votes).1.getD i ⟨"", 0, 0⟩ =
        ⟨options.getD i "",
          (votes.filter (fun v => v == (i : Int))).length,
          if 0 < (getPollResultsTally options votes).2 then
            roundPct ((votes.filter (fun v => v == (i : Int))).length)
              (getPollResultsTally options votes).2
          else 0⟩) ∧
    (∀ i, i < options.length → 0 < (getPollResultsTally options votes).2 →
      ((((getPollResultsTally options votes).1.getD i ⟨"", 0, 0⟩).percentage : ℤ) =
        round ((100 * ((((getPollResultsTally options votes).1.getD i
            ⟨"", 0, 0⟩).votes : ℚ))) / ((getPollResultsTally options votes).2 : ℚ)))) ∧
    (∀ i, i < options.length → (getPollResultsTally options votes).2 = 0 →
      ((getPollResultsTally options votes).1.getD i ⟨"", 0, 0⟩).percentage = 0) := by
  have hdef : getPollResultsTally options votes =
      (tallyOptions options (voteCounts options.length votes)
        ((voteCounts options.length votes).sum),
      (voteCounts options.length votes).sum) := rfl
  have hclen : (voteCounts options.length votes).length = options.length :=
    voteCounts_length options.length votes
  have hentry : ∀ i, i < options.length →
      (getPollResultsTally options votes).1.getD i ⟨"", 0, 0⟩ =
        ⟨options.getD i "",
          (votes.filter (fun v => v == (i : Int))).length,
          if 0 < (getPollResultsTally options votes).2 then
            roundPct ((votes.filter (fun v => v == (i : Int))).length)
              (getPollResultsTally options votes).2
          else 0⟩ := by
    intro i hi
    rw [hdef]
    simp only
    rw [tallyOptions_getD options (voteCounts options.length votes)
      ((voteCounts options.length votes).sum) i hi hclen,
      voteCounts_getD options.length votes i hi]
  refine ⟨?_, ?_, ?_, hentry, ?_, ?_⟩
  · rw [hdef]
    exact tallyOptions_length options (voteCounts options.length votes)
      ((voteCounts options.length votes).sum) hclen
  · rw [hdef]
    exact voteCounts_sum options.length votes
  · rw [hdef]
  · intro i hi hpos
    rw [hentry i hi]
    simp only [if_pos hpos]
    exact roundPct_eq_round _ _ hpos
  · intro i hi hzero
    rw [hentry i hi]
    simp [hzero]

/-- Witness for `getPollResultsTally_spec`: options `["A","B"]` with votes
`[0,0,0,1]` yield counts 3 and 1, `totalVotes = 4` and percentages 75 and 25;
the second conjunct is the theorem's entry characterization applied at slot
0. -/
theorem getPollResultsTally_spec_witness :
    getPollResultsTally ["A", "B"] [0, 0, 0, 1] =
      ([⟨"A", 3, 75⟩, ⟨"B", 1, 25⟩], 4) ∧
    (getPollResultsTally ["A", "B"] [0, 0, 0, 1]).1.getD 0 ⟨"", 0, 0⟩ =
      ⟨"A", 3, 75⟩ := by
  refine ⟨rfl, ?_⟩
  have h := (getPollResultsTally_spec ["A", "B"] [0, 0, 0, 1]).2.2.2.1 0 (by decide)
  simpa using h

/-- C8 counterexample: the claim says a supplied `expiresAt` that is not
strictly in the future makes creation fail with a validation error and
nothing is persisted.  The authoritative `createPoll` never reads the
`expiresAt` form field (it parses only `{ question, options }`, so the
schema's expiration rule sees `undefined` and passes): supplying the past
datetime `2020-01-01T00:00` still succeeds and persists a poll — with no
expiration. -/
theorem createPoll_ignores_expiresAt_field :
    createPoll ⟨[], []⟩ (some "alice") "Best color" ["Red", "Blue"]
        (some "2020-01-01T00:00") "id1" none =
      (none, ⟨[⟨"id1", "alice", "Best color", ["Red", "Blue"], none⟩], []⟩) := rfl

/-- C8 (amended): poll creation validates the question and the retained
(non-empty) options and fails with the schema's message — persisting
nothing — when the options are not all unique, fewer than 2, more than 10,
or any retained option is longer than 200 characters (empty option strings
are dropped by `filter(Boolean)` before validation, so a too-short option
never reaches the schema).  The `expiresAt` form field is never read by
`createPoll`, so its value — past or future — cannot affect the result;
only the schema itself, when handed an expiration, requires it to be
strictly in the future. -/
theorem createPoll_validation (db : DB) (user : Option String) (q : String)
    (raw : List String) (e : Option String) (newId : String) (ins : Option String) :
    (∀ m, createPollParse q (raw.filter (fun o => o != "")) none 0 = some m →
      createPoll db user q raw e newId ins = (some m, db)) ∧
    (¬ q.length < 1 → ¬ q.length > 500 → (q.toList.all isQuestionChar) = true →
      (raw.filter (fun o => o != "")).length < 2 →
      createPollParse q (raw.filter (fun o => o != "")) none 0 =
        some "At least 2 options are required") ∧
    (¬ q.length < 1 → ¬ q.length > 500 → (q.toList.all isQuestionChar) = true →
      (raw.filter (fun o => o != "")).length > 10 →
      createPollParse q (raw.filter (fun o => o != "")) none 0 =
        some "Maximum 10 options allowed") ∧
    (¬ q.length < 1 → ¬ q.length > 500 → (q.toList.all isQuestionChar) = true →
      ¬ (raw.filter (fun o => o != "")).length < 2 →
      ¬ (raw.filter (fun o => o != "")).length > 10 →
      ((raw.filter (fun o => o != "")).all
        (fun o => decide (1 ≤ o.length ∧ o.length ≤ 200))) = false →
      createPollParse q (raw.filter (fun o => o != "")) none 0 =
        some "Each option must be between 1 and 200 characters") ∧
    (¬ q.length < 1 → ¬ q.length > 500 → (q.toList.all isQuestionChar) = true →
      ¬ (raw.filter (fun o => o != "")).length < 2 →
      ¬ (raw.filter (fun o => o != "")).length > 10 →
      ((raw.filter (fun o => o != "")).all
        (fun o => decide (1 ≤ o.length ∧ o.length ≤ 200))) = true →
      ¬ (raw.filter (fun o => o != "")).Nodup →
      createPollParse q (raw.filter (fun o => o != "")) none 0 =
        some "Options must be unique") ∧
    (∀ t : Int, ∀ now : Int, ¬ t > now →
      createPollParse q (raw.filter (fun o => o != "")) (some t) now ≠ none) ∧
    (∀ e2, createPoll db user q raw e newId ins = createPoll db user q raw e2 newId ins) := by
  refine ⟨?_, ?_, ?_, ?_, ?_, ?_, fun e2 => rfl⟩
  · intro m h
    simp [createPoll, h]
  · intro h1 h2 h3 h4
    unfold createPollParse
    rw [if_neg h1, if_neg h2, if_neg (by rw [h3]; simp), if_pos h4]
  · intro h1 h2 h3 h4
    unfold createPollParse
    rw [if_neg h1, if_neg h2, if_neg (by rw [h3]; simp), if_neg (by omega), if_pos h4]
  · intro h1 h2 h3 h4 h5 h6
    unfold createPollParse
    rw [if_neg h1, if_neg h2, if_neg (by rw [h3]; simp), if_neg h4, if_neg h5, if_pos h6]
  · intro h1 h2 h3 h4 h5 h6 h7
    unfold createPollParse
    rw [if_neg h1, if_neg h2, if_neg (by rw [h3]; simp), if_neg h4, if_neg h5,
      if_neg (by rw [h6]; simp), if_pos h7]
  · intro t now ht
    unfold createPollParse
    split_ifs <;> simp_all

/-- Witness for `createPoll_validation`: duplicate options `["X","X"]` make
creation fail with the uniqueness message and persist nothing. -/
theorem createPoll_validation_witness :
    createPoll ⟨[], []⟩ (some "alice") "Best color" ["X", "X"] none "id1" none =
      (some "Options must be unique", ⟨[], []⟩) :=
  (createPoll_validation ⟨[], []⟩ (some "alice") "Best color" ["X", "X"]
    none "id1" none).1 "Options must be unique" rfl

theorem castVote_ins_independent (db : DB) (user : Option String) (now : Int)
    (pid : String) (idx : Int) (m1 m2 : String) :
    castVote db user now pid idx (some m1) = castVote db user now pid idx (some m2) := by
  cases hp : voteParse pid idx with
  | some m =>
      rw [castVote_parse_fail db user now pid idx (some m1) m hp,
        castVote_parse_fail db user now pid idx (some m2) m hp]
  | none =>
    cases hf : findPoll db pid with
    | none =>
        rw [castVote_poll_missing db user now pid idx (some m1) hp hf,
          castVote_poll_missing db user now pid idx (some m2) hp hf]
    | some poll =>
      cases he : pollExpired poll.expiresAt now with
      | true =>
          rw [castVote_expired db user now pid idx (some m1) poll hp hf he,
            castVote_expired db user now pid idx (some m2) poll hp hf he]
      | false =>
        by_cases hb : idx < 0 ∨ idx ≥ (poll.options.length : Int)
        · rw [castVote_bad_index db user now pid idx (some m1) poll hp hf he hb,
            castVote_bad_index db user now pid idx (some m2) poll hp hf he hb]
        · cases hd : hasUserVote db user pid with
          | true =>
              rw [castVote_dup db user now pid idx (some m1) poll hp hf he hb hd,
                castVote_dup db user now pid idx (some m2) poll hp hf he hb hd]
          | false =>
              rw [castVote_storage_error db user now pid idx m1 poll hp hf he hb hd,
                castVote_storage_error db user now pid idx m2 poll hp hf he hb hd]

/-- C9 counterexample: the claim says a Repository failure surfaces as a
generic message that does not depend on the raw error's detail.  The server
action `submitVote` returns `error.message` verbatim: with the insert
failing with message `db internal detail A`, the caller sees exactly that
string, and changing only the internal message changes the caller-visible
error. -/
theorem submitVote_returns_raw_storage_error :
    (submitVote
        ⟨[⟨"00000000-0000-0000-0000-000000000000", "owner1", "Q", ["A", "B"], none⟩], []⟩
        [] (some "voter2") 0 "00000000-0000-0000-0000-000000000000" 0
        (some "db internal detail A")).1 = some "db internal detail A" ∧
    (submitVote
        ⟨[⟨"00000000-0000-0000-0000-000000000000", "owner1", "Q", ["A", "B"], none⟩], []⟩
        [] (some "voter2") 0 "00000000-0000-0000-0000-000000000000" 0
        (some "db internal detail A")).1 ≠
      (submitVote
        ⟨[⟨"00000000-0000-0000-0000-000000000000", "owner1", "Q", ["A", "B"], none⟩], []⟩
        [] (some "voter2") 0 "00000000-0000-0000-0000-000000000000" 0
        (some "db internal detail B")).1 := by
  refine ⟨rfl, ?_⟩
  have e1 : (submitVote
      ⟨[⟨"00000000-0000-0000-0000-000000000000", "owner1", "Q", ["A", "B"], none⟩], []⟩
      [] (some "voter2") 0 "00000000-0000-0000-0000-000000000000" 0
      (some "db internal detail A")).1 = some "db internal detail A" := rfl
  have e2 : (submitVote
      ⟨[⟨"00000000-0000-0000-0000-000000000000", "owner1", "Q", ["A", "B"], none⟩], []⟩
      [] (some "voter2") 0 "00000000-0000-0000-0000-000000000000" 0
      (some "db internal detail B")).1 = some "db internal detail B" := rfl
  rw [e1, e2]
  decide

/-- C9 (amended): the client function `castVote` does sanitize Repository
failures — its result is independent of the storage error's message (the
insert failure surfaces as the fixed string `Failed to submit vote`) — but
the server actions do not: `submitVote` and `createPoll` return the storage
error's message verbatim to the caller, so two runs differing only in that
internal message produce different caller-visible strings. -/
theorem storage_error_propagation (db : DB) (rl : RLMap) (user : Option String)
    (now : Int) (pid : String) (idx : Int) (q : String) (raw : List String)
    (e : Option String) (newId : String) :
    (∀ msg poll, voteParse pid idx = none →
      (rateLimit rl (voteKey user pid) 5 60000 now).1.success = true →
      hasUserVote db user pid = false →
      findPoll db pid = some poll →
      ¬ idx ≥ (poll.options.length : Int) →
      (submitVote db rl user now pid idx (some msg)).1 = some msg) ∧
    (∀ msg u, createPollParse q (raw.filter (fun o => o != "")) none 0 = none →
      (createPoll db (some u) q raw e newId (some msg)).1 = some msg) ∧
    (∀ m1 m2, castVote db user now pid idx (some m1) =
      castVote db user now pid idx (some m2)) := by
  refine ⟨?_, ?_, fun m1 m2 => castVote_ins_independent db user now pid idx m1 m2⟩
  · intro msg poll hp hr hd hf hb
    rw [submitVote_storage_error db rl user now pid idx msg poll hp hr hd hf hb]
  · intro msg u h
    simp [createPoll, h]

/-- Witness for `storage_error_propagation`: a concrete `submitVote` run whose
insert fails with an internal message returns exactly that message. -/
theorem storage_error_propagation_witness :
    (submitVote
        ⟨[⟨"00000000-0000-0000-0000-000000000000", "owner1", "Q", ["A", "B"], none⟩], []⟩
        [] (some "voter2") 0 "00000000-0000-0000-0000-000000000000" 0
        (some "boom")).1 = some "boom" :=
  (storage_error_propagation
    ⟨[⟨"00000000-0000-0000-0000-000000000000", "owner1", "Q", ["A", "B"], none⟩], []⟩
    [] (some "voter2") 0 "00000000-0000-0000-0000-000000000000" 0 "Q" [] none "x").1
    "boom" ⟨"00000000-0000-0000-0000-000000000000", "owner1", "Q", ["A", "B"], none⟩
    rfl rfl rfl rfl (by decide)

end Polly
